import Mathlib

/-!
# Verification of `src/login.ts` (epicgames-freegames-node)

Shallow embedding of the `Login` class from `src/login.ts`.  Network I/O is
modelled by a `World` holding one scripted response stream per endpoint
(the server is an external oracle) plus a `trace` recording, in order, every
network request issued and every call to the external CAPTCHA resolver.
Each method of the class becomes a function `World → Except Err α × World`;
a thrown JavaScript error becomes an `Except.error`, and the `World` (with
its trace) survives the throw, so theorems can speak about which requests
were issued before a failure.
-/

namespace EpicLogin

/-- Boolean prefix test on character lists (`a` is a prefix of the second list). -/
def isPre : List Char → List Char → Bool
  | [], _ => true
  | _ :: _, [] => false
  | a :: as, b :: bs => a == b && isPre as bs

/-- Boolean substring test on character lists: `hasSubList sub l` holds iff
`sub` occurs contiguously inside `l`. -/
def hasSubList (sub : List Char) : List Char → Bool
  | [] => isPre sub []
  | c :: rest => isPre sub (c :: rest) || hasSubList sub rest

/-- JavaScript `s.includes(sub)`: substring test on strings. -/
def containsSub (s sub : String) : Bool :=
  hasSubList sub.toList s.toList

/-- The exact error code compared by equality at `login.ts:122`. -/
def captchaInvalidCode : String :=
  "errors.com.epicgames.accountportal.captcha_invalid"

/-- The exact error code compared by equality at `login.ts:128-129`. -/
def twoFactorRequiredCode : String :=
  "errors.com.epicgames.common.two_factor_authentication.required"

/-- The substring matched by `errorCode.includes(..)` at `login.ts:118`. -/
def sessionInvalidatedSub : String := "session_invalidated"

/-- An error thrown by a network request (`got` HTTP error object `e`).
`hasResponse`/`hasBody` model truthiness of `e.response` and
`e.response.body`; `errorCode` models `e.response.body.errorCode`
(`none` = field absent).  `eid` is an identity tag so that re-throwing
"the same error object unchanged" is expressible. -/
structure HttpErr where
  hasResponse : Bool
  hasBody : Bool
  errorCode : Option String
  eid : Nat
deriving DecidableEq, Repr

/-- Any error that can propagate out of a `Login` method. -/
inductive Err where
  /-- an HTTP-layer error thrown by `await this.request...` -/
  | http (e : HttpErr)
  /-- `throw new Error(msg)` raised by the code itself -/
  | app (msg : String)
  /-- TypeError from reading `.value` of a missing `XSRF-TOKEN` cookie -/
  | typeError
  /-- the scripted response stream for an endpoint is exhausted -/
  | noResp
  /-- marker of the structurally-unreachable zero-gas retry branch -/
  | gasExhausted
deriving DecidableEq, Repr

/-- A network request, with the data the code puts into it. -/
inductive Req where
  /-- GET `CSRF_ENDPOINT` (`getCsrf`, login.ts:42) -/
  | csrfGet
  /-- POST `LOGIN_ENDPOINT` with `{password, rememberMe: true, captcha, email}`
  and header `x-xsrf-token` (login.ts:109-114) -/
  | loginPost (email password captcha csrfToken : String)
  /-- POST `MFA_LOGIN_ENDPOINT` with `{code, method: authenticator,
  rememberDevice: true}` and header `x-xsrf-token` (login.ts:66-71) -/
  | mfaPost (code csrfToken : String)
  /-- POST `EMAIL_VERIFY` (login.ts:80-85) -/
  | verifyPost (code csrfToken : String)
  /-- GET `REPUTATION_ENDPOINT` (login.ts:51) -/
  | reputationGet
  /-- GET `REDIRECT_ENDPOINT` with fixed clientId/redirectUrl params and
  header `x-xsrf-token` (login.ts:157-162) -/
  | redirectGet (csrfToken : String)
  /-- GET `SET_SID_ENDPOINT` with `sid` param (login.ts:170) -/
  | setSidGet (sid : String)
  /-- GET `STORE_HOMEPAGE` (`getStoreToken`, login.ts:148) -/
  | storeGet
deriving DecidableEq, Repr

/-- An observable event: a network request, or a call to the external
CAPTCHA-resolution channel `notifyManualCaptcha` (login.ts:125). -/
inductive Ev where
  | net (r : Req)
  | captcha (blob : Option String)
deriving DecidableEq, Repr

/-- Scripted response of the CSRF endpoint: a token value in the
`XSRF-TOKEN` set-cookie, or that cookie missing, or an HTTP failure. -/
inductive CsrfR where
  | tok (t : String)
  | missing
  | fail (e : HttpErr)
deriving DecidableEq, Repr

/-- Scripted response of the reputation endpoint: a body whose
`arkose_data.blob` is the given optional string, or an HTTP failure. -/
inductive RepR where
  | ok (blob : Option String)
  | fail (e : HttpErr)
deriving DecidableEq, Repr

/-- Scripted response of the redirect endpoint: a body whose `sid` field is
the given optional string (`none` = absent), or an HTTP failure. -/
inductive RedirR where
  | ok (sid : Option String)
  | fail (e : HttpErr)
deriving DecidableEq, Repr

/-- The environment of one run: one scripted response stream per endpoint,
consumed front to back, the oracle for TOTP code generation, and the trace
of events issued so far (in order). -/
structure World where
  csrfS : List CsrfR
  loginS : List (Option HttpErr)
  mfaS : List (Option HttpErr)
  repS : List RepR
  redirS : List RedirR
  sidS : List (Option HttpErr)
  storeS : List (Option HttpErr)
  verifyS : List (Option HttpErr)
  capS : List String
  totpGen : String → String
  trace : List Ev

/-- Record an event at the end of the trace. -/
def pushEv (w : World) (e : Ev) : World := { w with trace := w.trace ++ [e] }

/-- JavaScript truthiness of an optional string: `undefined` and the empty
string are falsy. -/
def strTruthy : Option String → Option String
  | some s => if s = "" then none else some s
  | none => none

/-- The guard `e.response && e.response.body && e.response.body.errorCode`
of login.ts:117: returns the error code when the error has the structured
shape with a truthy `errorCode`, else `none`. -/
def structuredCode : Err → Option String
  | Err.http h =>
    if h.hasResponse && h.hasBody then
      match h.errorCode with
      | some c => if c = "" then none else some c
      | none => none
    else none
  | _ => none

/-- `getCsrf()` (login.ts:39-47): GET the CSRF endpoint, then read the
`XSRF-TOKEN` cookie value (a missing cookie raises a TypeError). -/
def getCsrf (w : World) : Except Err String × World :=
  let w1 := pushEv w (Ev.net Req.csrfGet)
  match w1.csrfS with
  | [] => (Except.error Err.noResp, w1)
  | r :: rest =>
    let w2 : World := { w1 with csrfS := rest }
    match r with
    | CsrfR.tok t => (Except.ok t, w2)
    | CsrfR.missing => (Except.error Err.typeError, w2)
    | CsrfR.fail e => (Except.error (Err.http e), w2)

/-- `getReputation()` (login.ts:49-53): GET the reputation endpoint and
return its body (modelled by its `arkose_data.blob` field, the only part
the rest of the code reads). -/
def getReputation (w : World) : Except Err (Option String) × World :=
  let w1 := pushEv w (Ev.net Req.reputationGet)
  match w1.repS with
  | [] => (Except.error Err.noResp, w1)
  | r :: rest =>
    let w2 : World := { w1 with repS := rest }
    match r with
    | RepR.ok blob => (Except.ok blob, w2)
    | RepR.fail e => (Except.error (Err.http e), w2)

/-- `loginMFA(totpSecret?)` (login.ts:55-72): throw immediately when the
TOTP secret is falsy, else fetch a CSRF token, generate a TOTP code and
POST it to the MFA endpoint. -/
def loginMFA (totpSecret : Option String) (w : World) : Except Err Unit × World :=
  match strTruthy totpSecret with
  | none => (Except.error (Err.app "TOTP required for MFA login"), w)
  | some secret =>
    match getCsrf w with
    | (Except.error e, w1) => (Except.error e, w1)
    | (Except.ok csrfToken, w1) =>
      let code := w1.totpGen secret
      let w2 := pushEv w1 (Ev.net (Req.mfaPost code csrfToken))
      match w2.mfaS with
      | [] => (Except.error Err.noResp, w2)
      | r :: rest =>
        let w3 : World := { w2 with mfaS := rest }
        match r with
        | none => (Except.ok (), w3)
        | some e => (Except.error (Err.http e), w3)

/-- `sendVerify(code)` (login.ts:74-86): POST an email verification code
with a fresh CSRF token. -/
def sendVerify (code : String) (w : World) : Except Err Unit × World :=
  match getCsrf w with
  | (Except.error e, w1) => (Except.error e, w1)
  | (Except.ok csrfToken, w1) =>
    let w2 := pushEv w1 (Ev.net (Req.verifyPost code csrfToken))
    match w2.verifyS with
    | [] => (Except.error Err.noResp, w2)
    | r :: rest =>
      let w3 : World := { w2 with verifyS := rest }
      match r with
      | none => (Except.ok (), w3)
      | some e => (Except.error (Err.http e), w3)

/-- Modelled from the spec: `notifyManualCaptcha` lives in `src/captcha`,
which is not part of the provided sources.  Per the spec it is the external,
blocking CAPTCHA-solving channel: it receives the opaque blob and returns a
solved token.  Modelled as an oracle consuming the next scripted token and
recording one `Ev.captcha` event per call. -/
def notifyManualCaptcha (blob : Option String) (w : World) : Except Err String × World :=
  let w1 := pushEv w (Ev.captcha blob)
  match w1.capS with
  | [] => (Except.error Err.noResp, w1)
  | t :: rest => (Except.ok t, { w1 with capS := rest })

/-- Body of `login()` (login.ts:88-141), with a structural `gas` argument
driving the bounded recursion.  `login` below always calls this with
`gas = 6 - attempt`, which makes the zero-gas retry branches unreachable
(the `attempt > 5` guard fires first); see `loginGo_no_gasExhausted`.
Control flow, mirrored from the source: fetch CSRF; throw the attempt-limit
error when `attempt > 5`; POST the credentials; on an error with a
structured `errorCode`, branch on `includes("session_invalidated")` /
captcha-invalid / two-factor-required, else re-throw; on an unstructured
error, re-throw. -/
def loginGo (gas : Nat) (email password captcha totp : String) (blob : Option String)
    (attempt : Nat) (w : World) : Except Err Unit × World :=
  match getCsrf w with
  | (Except.error e, w1) => (Except.error e, w1)
  | (Except.ok csrfToken, w1) =>
    if attempt > 5 then
      (Except.error (Err.app "Too many login attempts"), w1)
    else
      let w2 := pushEv w1 (Ev.net (Req.loginPost email password captcha csrfToken))
      match w2.loginS with
      | [] => (Except.error Err.noResp, w2)
      | r :: rest =>
        let w3 : World := { w2 with loginS := rest }
        match r with
        | none => (Except.ok (), w3)
        | some he =>
          match structuredCode (Err.http he) with
          | some c =>
            if containsSub c sessionInvalidatedSub then
              match gas with
              | g + 1 => loginGo g email password captcha totp blob (attempt + 1) w3
              | 0 => (Except.error Err.gasExhausted, w3)
            else if c = captchaInvalidCode then
              match notifyManualCaptcha blob w3 with
              | (Except.error e2, w4) => (Except.error e2, w4)
              | (Except.ok captchaToken, w4) =>
                match gas with
                | g + 1 => loginGo g email password captchaToken totp blob (attempt + 1) w4
                | 0 => (Except.error Err.gasExhausted, w4)
            else if c = twoFactorRequiredCode then
              loginMFA (some totp) w3
            else
              (Except.error (Err.http he), w3)
          | none => (Except.error (Err.http he), w3)

/-- `login(email, password, captcha = "", totp = "", blob?, attempt = 0)`
(login.ts:88-141).  The recursion of the source is realised through
`loginGo` with gas `6 - attempt`: since the guard throws once `attempt > 5`,
this gas is exactly the number of retries still possible.  The lemmas
`login_unfold` (for `attempt ≤ 5`) and `loginGo_attempt_gt` (for
`attempt > 5`) below recover the source recursion verbatim on every input,
so the gas encoding is observably irrelevant. -/
def login (email password captcha totp : String) (blob : Option String)
    (attempt : Nat) (w : World) : Except Err Unit × World :=
  loginGo (6 - attempt) email password captcha totp blob attempt w

/-- `getStoreToken()` (login.ts:146-150): GET the store homepage for its
session cookie side effect. -/
def getStoreToken (w : World) : Except Err Unit × World :=
  let w1 := pushEv w (Ev.net Req.storeGet)
  match w1.storeS with
  | [] => (Except.error Err.noResp, w1)
  | r :: rest =>
    let w2 : World := { w1 with storeS := rest }
    match r with
    | none => (Except.ok (), w2)
    | some e => (Except.error (Err.http e), w2)

/-- `refreshAndSid(error)` (login.ts:152-174): fetch CSRF, request the
redirect ticket; when the body has no truthy `sid`, throw when `error` is
true and return `false` otherwise; when a `sid` is present, set it and
prime the store token, returning `true`. -/
def refreshAndSid (error : Bool) (w : World) : Except Err Bool × World :=
  match getCsrf w with
  | (Except.error e, w1) => (Except.error e, w1)
  | (Except.ok csrfToken, w1) =>
    let w2 := pushEv w1 (Ev.net (Req.redirectGet csrfToken))
    match w2.redirS with
    | [] => (Except.error Err.noResp, w2)
    | r :: rest =>
      let w3 : World := { w2 with redirS := rest }
      match r with
      | RedirR.fail e => (Except.error (Err.http e), w3)
      | RedirR.ok sid =>
        match strTruthy sid with
        | none =>
          if error then (Except.error (Err.app "Sid returned null"), w3)
          else (Except.ok false, w3)
        | some s =>
          let w4 := pushEv w3 (Ev.net (Req.setSidGet s))
          match w4.sidS with
          | [] => (Except.error Err.noResp, w4)
          | r2 :: rest2 =>
            let w5 : World := { w4 with sidS := rest2 }
            match r2 with
            | some e => (Except.error (Err.http e), w5)
            | none =>
              match getStoreToken w5 with
              | (Except.error e, w6) => (Except.error e, w6)
              | (Except.ok _, w6) => (Except.ok true, w6)

/-- `fullLogin(email, password, totp)` (login.ts:176-190): try to refresh
the session; when that fails, fetch the reputation blob, log in fresh with
it, and demand a SID.  The config-supplied defaults of the source are
passed explicitly here. -/
def fullLogin (email password totp : String) (w : World) : Except Err Unit × World :=
  match refreshAndSid false w with
  | (Except.error e, w1) => (Except.error e, w1)
  | (Except.ok true, w1) => (Except.ok (), w1)
  | (Except.ok false, w1) =>
    match getReputation w1 with
    | (Except.error e, w2) => (Except.error e, w2)
    | (Except.ok rep, w2) =>
      match login email password "" totp rep 0 w2 with
      | (Except.error e, w3) => (Except.error e, w3)
      | (Except.ok _, w3) =>
        match refreshAndSid true w3 with
        | (Except.error e, w4) => (Except.error e, w4)
        | (Except.ok _, w4) => (Except.ok (), w4)

/-- Is this event the credential POST to the login endpoint? -/
def isLoginPost : Ev → Bool
  | Ev.net (Req.loginPost _ _ _ _) => true
  | _ => false

/-- Number of credential POSTs recorded in a trace. -/
def countLoginPosts (l : List Ev) : Nat := (l.filter isLoginPost).length

/-! ## Step lemmas

Deterministic evaluation lemmas for the individual operations, and the
one-step unfolding equation `login_unfold` showing that `login` satisfies,
verbatim, the recursion of the source (so the `gas` encoding of the
bounded recursion is invisible to every consumer). -/

theorem getCsrf_ok (w : World) (t : String) (rest : List CsrfR)
    (hc : w.csrfS = CsrfR.tok t :: rest) :
    getCsrf w = (Except.ok t,
      { w with csrfS := rest, trace := w.trace ++ [Ev.net Req.csrfGet] }) := by
  simp [getCsrf, pushEv, hc]

theorem getCsrf_trace (w : World) :
    (getCsrf w).2.trace = w.trace ++ [Ev.net Req.csrfGet] := by
  unfold getCsrf pushEv
  rcases h : w.csrfS with _ | ⟨r, rest⟩ <;> simp [h]
  cases r <;> simp

theorem login_unfold (email password captcha totp : String) (blob : Option String)
    (attempt : Nat) (w : World) (ha : attempt ≤ 5) :
    login email password captcha totp blob attempt w =
      match getCsrf w with
      | (Except.error e, w1) => (Except.error e, w1)
      | (Except.ok csrfToken, w1) =>
        let w2 := pushEv w1 (Ev.net (Req.loginPost email password captcha csrfToken))
        match w2.loginS with
        | [] => (Except.error Err.noResp, w2)
        | r :: rest =>
          let w3 : World := { w2 with loginS := rest }
          match r with
          | none => (Except.ok (), w3)
          | some he =>
            match structuredCode (Err.http he) with
            | some c =>
              if containsSub c sessionInvalidatedSub then
                login email password captcha totp blob (attempt + 1) w3
              else if c = captchaInvalidCode then
                match notifyManualCaptcha blob w3 with
                | (Except.error e2, w4) => (Except.error e2, w4)
                | (Except.ok captchaToken, w4) =>
                  login email password captchaToken totp blob (attempt + 1) w4
              else if c = twoFactorRequiredCode then
                loginMFA (some totp) w3
              else
                (Except.error (Err.http he), w3)
            | none => (Except.error (Err.http he), w3) := by
  unfold login
  simp only [show 6 - (attempt + 1) = 5 - attempt from by omega]
  rw [show 6 - attempt = (5 - attempt) + 1 from by omega]
  conv_lhs => rw [loginGo.eq_def]
  have hng : ¬ attempt > 5 := by omega
  simp only [hng, ite_false, if_false, ← Nat.succ_eq_add_one]

theorem login_err (email password captcha totp : String) (blob : Option String)
    (attempt : Nat) (w : World) (tok : String) (crest : List CsrfR)
    (he : HttpErr) (lrest : List (Option HttpErr))
    (ha : attempt ≤ 5) (hc : w.csrfS = CsrfR.tok tok :: crest)
    (hl : w.loginS = some he :: lrest) :
    login email password captcha totp blob attempt w =
      (let w3 : World :=
         { w with
           csrfS := crest, loginS := lrest,
           trace := w.trace ++ [Ev.net Req.csrfGet,
                                Ev.net (Req.loginPost email password captcha tok)] }
       match structuredCode (Err.http he) with
       | some c =>
         if containsSub c sessionInvalidatedSub then
           login email password captcha totp blob (attempt + 1) w3
         else if c = captchaInvalidCode then
           match notifyManualCaptcha blob w3 with
           | (Except.error e2, w4) => (Except.error e2, w4)
           | (Except.ok captchaToken, w4) =>
             login email password captchaToken totp blob (attempt + 1) w4
         else if c = twoFactorRequiredCode then
           loginMFA (some totp) w3
         else (Except.error (Err.http he), w3)
       | none => (Except.error (Err.http he), w3)) := by
  rw [login_unfold email password captcha totp blob attempt w ha,
      getCsrf_ok w tok crest hc]
  simp only [pushEv, hl, List.append_assoc, List.cons_append, List.nil_append]


theorem countLoginPosts_append (l1 l2 : List Ev) :
    countLoginPosts (l1 ++ l2) = countLoginPosts l1 + countLoginPosts l2 := by
  simp [countLoginPosts]

theorem notifyManualCaptcha_trace (blob : Option String) (w : World) :
    (notifyManualCaptcha blob w).2.trace = w.trace ++ [Ev.captcha blob] := by
  unfold notifyManualCaptcha pushEv
  rcases h : w.capS with _ | ⟨t, rest⟩ <;> simp [h]

theorem loginMFA_count (t : Option String) (w : World) :
    countLoginPosts (loginMFA t w).2.trace = countLoginPosts w.trace := by
  unfold loginMFA
  cases hst : strTruthy t
  · simp
  · rcases hg : getCsrf w with ⟨r, w1⟩
    have hct := getCsrf_trace w
    rw [hg] at hct
    simp only at hct
    cases r
    · simp [hct, countLoginPosts_append, countLoginPosts, isLoginPost]
    · simp only [pushEv]
      rcases hm : w1.mfaS with _ | ⟨r2, rest2⟩ <;>
        simp [hm, hct, countLoginPosts_append, countLoginPosts, isLoginPost]
      cases r2 <;>
        simp [hct, countLoginPosts_append, countLoginPosts, isLoginPost]

theorem loginGo_post_bound (gas : Nat) : ∀ (email password captcha totp : String)
    (blob : Option String) (attempt : Nat) (w : World), 6 ≤ gas + attempt →
    countLoginPosts (loginGo gas email password captcha totp blob attempt w).2.trace
      ≤ countLoginPosts w.trace + (6 - attempt) := by
  induction gas with
  | zero =>
    intro email password captcha totp blob attempt w h6
    have hct := getCsrf_trace w
    unfold loginGo
    rcases hg : getCsrf w with ⟨r, w1⟩
    rw [hg] at hct
    simp only at hct
    cases r
    · simp [hct, countLoginPosts_append, countLoginPosts, isLoginPost]
    · have : attempt > 5 := by omega
      simp [this, hct, countLoginPosts_append, countLoginPosts, isLoginPost]
  | succ g ih =>
    intro email password captcha totp blob attempt w h6
    have hct := getCsrf_trace w
    unfold loginGo
    rcases hg : getCsrf w with ⟨r, w1⟩
    rw [hg] at hct
    simp only at hct
    have hc1 : countLoginPosts w1.trace = countLoginPosts w.trace := by
      simp [hct, countLoginPosts_append, countLoginPosts, isLoginPost]
    cases r
    · simp [hc1]
    · rename_i tok
      by_cases hatt : attempt > 5
      · simp [hatt, hc1]
      · have ha5 : attempt ≤ 5 := by omega
        simp only [hatt, if_false, ite_false, pushEv]
        have hc2 : countLoginPosts (w1.trace ++ [Ev.net (Req.loginPost email password captcha tok)])
            = countLoginPosts w.trace + 1 := by
          simp [hc1, hct, countLoginPosts_append, countLoginPosts, isLoginPost]
        rcases hl : w1.loginS with _ | ⟨r2, lrest⟩
        · simp [hl, hc2]
          omega
        · simp only [hl]
          cases r2 with
          | none => simp [hc2]; omega
          | some he =>
            rcases hsc : structuredCode (Err.http he) with _ | c
            · simp [hsc, hc2]
              omega
            · simp only [hsc]
              split
              · have hih := ih email password captcha totp blob (attempt + 1)
                  { csrfS := w1.csrfS, loginS := lrest, mfaS := w1.mfaS, repS := w1.repS,
                    redirS := w1.redirS, sidS := w1.sidS, storeS := w1.storeS,
                    verifyS := w1.verifyS, capS := w1.capS, totpGen := w1.totpGen,
                    trace := w1.trace ++ [Ev.net (Req.loginPost email password captcha tok)] }
                  (by omega)
                simp only [hc2] at hih
                omega
              · split
                · rcases hn : notifyManualCaptcha blob
                      { csrfS := w1.csrfS, loginS := lrest, mfaS := w1.mfaS, repS := w1.repS,
                        redirS := w1.redirS, sidS := w1.sidS, storeS := w1.storeS,
                        verifyS := w1.verifyS, capS := w1.capS, totpGen := w1.totpGen,
                        trace := w1.trace ++ [Ev.net (Req.loginPost email password captcha tok)] }
                      with ⟨rc, w4⟩
                  have hnt := notifyManualCaptcha_trace blob
                      { csrfS := w1.csrfS, loginS := lrest, mfaS := w1.mfaS, repS := w1.repS,
                        redirS := w1.redirS, sidS := w1.sidS, storeS := w1.storeS,
                        verifyS := w1.verifyS, capS := w1.capS, totpGen := w1.totpGen,
                        trace := w1.trace ++ [Ev.net (Req.loginPost email password captcha tok)] }
                  rw [hn] at hnt
                  simp only at hnt
                  have hc4 : countLoginPosts w4.trace = countLoginPosts w.trace + 1 := by
                    rw [hnt, countLoginPosts_append, hc2]
                    simp [countLoginPosts, isLoginPost]
                  cases rc
                  · simp [hc4]
                    omega
                  · rename_i ctok
                    have hih := ih email password ctok totp blob (attempt + 1) w4 (by omega)
                    simp only [hc4] at hih
                    show countLoginPosts
                        (loginGo g email password ctok totp blob (attempt + 1) w4).2.trace
                        ≤ countLoginPosts w.trace + (6 - attempt)
                    omega
                · split
                  · have hmc := loginMFA_count (some totp)
                        { csrfS := w1.csrfS, loginS := lrest, mfaS := w1.mfaS, repS := w1.repS,
                          redirS := w1.redirS, sidS := w1.sidS, storeS := w1.storeS,
                          verifyS := w1.verifyS, capS := w1.capS, totpGen := w1.totpGen,
                          trace := w1.trace ++ [Ev.net (Req.loginPost email password captcha tok)] }
                    rw [hmc]
                    show countLoginPosts (w1.trace ++ [Ev.net (Req.loginPost email password captcha tok)])
                        ≤ countLoginPosts w.trace + (6 - attempt)
                    rw [hc2]
                    omega
                  · show countLoginPosts (Except.error (Err.http he),
                        ({ csrfS := w1.csrfS, loginS := lrest, mfaS := w1.mfaS, repS := w1.repS,
                           redirS := w1.redirS, sidS := w1.sidS, storeS := w1.storeS,
                           verifyS := w1.verifyS, capS := w1.capS, totpGen := w1.totpGen,
                           trace := w1.trace ++ [Ev.net (Req.loginPost email password captcha tok)] } : World)).2.trace
                        ≤ countLoginPosts w.trace + (6 - attempt)
                    show countLoginPosts (w1.trace ++ [Ev.net (Req.loginPost email password captcha tok)])
                        ≤ countLoginPosts w.trace + (6 - attempt)
                    rw [hc2]
                    omega

/-! ## Concrete scaffolding for witnesses and counterexamples -/

/-- A structured error whose code contains `session_invalidated`. -/
def errSession : HttpErr :=
  { hasResponse := true, hasBody := true,
    errorCode := some "errors.com.epicgames.common.oauth.session_invalidated", eid := 1 }

/-- A structured error carrying exactly the captcha-invalid code. -/
def errCaptcha : HttpErr :=
  { hasResponse := true, hasBody := true, errorCode := some captchaInvalidCode, eid := 2 }

/-- A structured error carrying exactly the two-factor-required code. -/
def errTwoFactor : HttpErr :=
  { hasResponse := true, hasBody := true, errorCode := some twoFactorRequiredCode, eid := 3 }

/-- A structured error with an error code recognized by no branch. -/
def errOther : HttpErr :=
  { hasResponse := true, hasBody := true,
    errorCode := some "errors.com.epicgames.common.server_error", eid := 4 }

/-- Build a world with the given scripted streams, an empty trace and a
fixed TOTP oracle. -/
def mkWorld (csrfS : List CsrfR) (loginS mfaS : List (Option HttpErr)) (repS : List RepR)
    (redirS : List RedirR) (sidS storeS : List (Option HttpErr)) (capS : List String) :
    World :=
  { csrfS := csrfS, loginS := loginS, mfaS := mfaS, repS := repS, redirS := redirS,
    sidS := sidS, storeS := storeS, verifyS := [], capS := capS,
    totpGen := fun _ => "000000", trace := [] }

/-! ## Claim theorems -/

/-- Helper: for `attempt > 5` the body of `login` reduces to the CSRF fetch
followed by the attempt-limit throw, for any gas. -/
theorem loginGo_attempt_gt (gas : Nat) (email password captcha totp : String)
    (blob : Option String) (attempt : Nat) (w : World) (h : attempt > 5) :
    loginGo gas email password captcha totp blob attempt w =
      (match getCsrf w with
       | (Except.error e, w1) => (Except.error e, w1)
       | (Except.ok _, w1) => (Except.error (Err.app "Too many login attempts"), w1)) := by
  rw [loginGo.eq_def]
  rcases hg : getCsrf w with ⟨r, w1⟩
  cases r <;> simp [h]

/-- Claim C1: for every call to `login()` with `attempt > 5`, no credential POST is
issued (the trace gains exactly the CSRF GET and nothing else), and whenever
the CSRF fetch yields a token the call fails with the attempt-limit error
`Too many login attempts`. -/
theorem login_attempt_limit_no_post (email password captcha totp : String)
    (blob : Option String) (attempt : Nat) (w : World) (h : attempt > 5) :
    (login email password captcha totp blob attempt w).2.trace
        = w.trace ++ [Ev.net Req.csrfGet] ∧
    (∀ t rest, w.csrfS = CsrfR.tok t :: rest →
      (login email password captcha totp blob attempt w).1
        = Except.error (Err.app "Too many login attempts")) := by
  constructor
  · unfold login
    rw [loginGo_attempt_gt _ _ _ _ _ _ _ _ h]
    have hct := getCsrf_trace w
    rcases hg : getCsrf w with ⟨r, w1⟩
    rw [hg] at hct
    simp only at hct
    cases r <;> simpa using hct
  · intro t rest hc
    unfold login
    rw [loginGo_attempt_gt _ _ _ _ _ _ _ _ h, getCsrf_ok w t rest hc]

/-- World used by several witnesses: one CSRF token scripted, nothing else. -/
def wCsrfOnly : World := mkWorld [CsrfR.tok "csrf-a"] [] [] [] [] [] [] []

/-- Witness for C1 at `attempt = 6` on a concrete world. -/
theorem login_attempt_limit_no_post_witness :
    6 > 5 ∧
    ((login "user@example.com" "hunter2" "" "" none 6 wCsrfOnly).2.trace
        = wCsrfOnly.trace ++ [Ev.net Req.csrfGet] ∧
     (∀ t rest, wCsrfOnly.csrfS = CsrfR.tok t :: rest →
       (login "user@example.com" "hunter2" "" "" none 6 wCsrfOnly).1
         = Except.error (Err.app "Too many login attempts"))) :=
  ⟨by decide,
   login_attempt_limit_no_post "user@example.com" "hunter2" "" "" none 6 wCsrfOnly (by decide)⟩

/-- Claim C2, counterexample: at `attempt = 6` the attempt-limit error is thrown,
yet a network request (the CSRF GET) has been issued before it: the claim
that no network request of any kind precedes the error is false on the code
(the guard at login.ts:98 sits after the `getCsrf()` call at login.ts:97). -/
theorem login_attempt_limit_csrf_issued :
    (login "user@example.com" "hunter2" "" "" none 6 wCsrfOnly).1
        = Except.error (Err.app "Too many login attempts") ∧
    (login "user@example.com" "hunter2" "" "" none 6 wCsrfOnly).2.trace
        = [Ev.net Req.csrfGet] := by
  constructor <;> rfl

/-- Claim C2, amended: for `attempt > 5` (and a CSRF token available), `login()`
throws the attempt-limit error after issuing exactly one network request,
the CSRF GET; the credential POST is never issued. -/
theorem login_attempt_limit_after_csrf (email password captcha totp : String)
    (blob : Option String) (attempt : Nat) (w : World) (t : String) (rest : List CsrfR)
    (h : attempt > 5) (hc : w.csrfS = CsrfR.tok t :: rest) :
    login email password captcha totp blob attempt w =
      (Except.error (Err.app "Too many login attempts"),
       { w with csrfS := rest, trace := w.trace ++ [Ev.net Req.csrfGet] }) := by
  unfold login
  rw [loginGo_attempt_gt _ _ _ _ _ _ _ _ h, getCsrf_ok w t rest hc]

/-- Witness for the amended C2 theorem. -/
theorem login_attempt_limit_after_csrf_witness :
    6 > 5 ∧ wCsrfOnly.csrfS = CsrfR.tok "csrf-a" :: [] ∧
    login "user@example.com" "hunter2" "" "" none 6 wCsrfOnly =
      (Except.error (Err.app "Too many login attempts"),
       { wCsrfOnly with csrfS := [], trace := wCsrfOnly.trace ++ [Ev.net Req.csrfGet] }) :=
  ⟨by decide, rfl,
   login_attempt_limit_after_csrf "user@example.com" "hunter2" "" "" none 6 wCsrfOnly
     "csrf-a" [] (by decide) rfl⟩

/-- Helper: the global retry bound, phrased on `login`: a whole recursive
chain started at `attempt` adds at most `6 - attempt` credential POSTs to
the trace. -/
theorem login_post_bound (email password captcha totp : String) (blob : Option String)
    (attempt : Nat) (w : World) :
    countLoginPosts (login email password captcha totp blob attempt w).2.trace
      ≤ countLoginPosts w.trace + (6 - attempt) := by
  unfold login
  exact loginGo_post_bound (6 - attempt) email password captcha totp blob attempt w (by omega)

/-- Claim C3: when the credential POST fails with an error code containing
`session_invalidated`, `login()` retries with identical email, password,
captcha, totp and blob and `attempt + 1` (first conjunct, the recursion of
login.ts:120); and across the whole recursive chain at most `6 - attempt`
further credential POSTs are ever issued, the attempt-limit error being
thrown instead once the bound is passed (second conjunct). -/
theorem login_session_invalidated_retry (email password captcha totp : String)
    (blob : Option String) (attempt : Nat) (w : World) (tok : String) (crest : List CsrfR)
    (he : HttpErr) (lrest : List (Option HttpErr)) (c : String)
    (ha : attempt ≤ 5) (hc : w.csrfS = CsrfR.tok tok :: crest)
    (hl : w.loginS = some he :: lrest)
    (hcode : structuredCode (Err.http he) = some c)
    (hsub : containsSub c sessionInvalidatedSub = true) :
    login email password captcha totp blob attempt w =
      login email password captcha totp blob (attempt + 1)
        { w with
          csrfS := crest, loginS := lrest,
          trace := w.trace ++ [Ev.net Req.csrfGet,
                               Ev.net (Req.loginPost email password captcha tok)] } ∧
    countLoginPosts (login email password captcha totp blob attempt w).2.trace
      ≤ countLoginPosts w.trace + (6 - attempt) := by
  refine ⟨?_, login_post_bound email password captcha totp blob attempt w⟩
  rw [login_err email password captcha totp blob attempt w tok crest he lrest ha hc hl]
  simp only [hcode, hsub, if_true, ite_true]

/-- World for the C3 witness: two CSRF tokens, a session-invalidated error
then a success on the login endpoint. -/
def wSession : World :=
  mkWorld [CsrfR.tok "csrf-a", CsrfR.tok "csrf-b"] [some errSession, none] [] [] [] [] [] []

/-- Witness for C3 at `attempt = 0` on a concrete world. -/
theorem login_session_invalidated_retry_witness :
    0 ≤ 5 ∧ wSession.csrfS = CsrfR.tok "csrf-a" :: [CsrfR.tok "csrf-b"] ∧
    wSession.loginS = some errSession :: [none] ∧
    structuredCode (Err.http errSession)
        = some "errors.com.epicgames.common.oauth.session_invalidated" ∧
    containsSub "errors.com.epicgames.common.oauth.session_invalidated"
        sessionInvalidatedSub = true ∧
    (login "user@example.com" "hunter2" "" "" none 0 wSession =
      login "user@example.com" "hunter2" "" "" none 1
        { wSession with
          csrfS := [CsrfR.tok "csrf-b"], loginS := [none],
          trace := wSession.trace ++ [Ev.net Req.csrfGet,
            Ev.net (Req.loginPost "user@example.com" "hunter2" "" "csrf-a")] } ∧
     countLoginPosts (login "user@example.com" "hunter2" "" "" none 0 wSession).2.trace
       ≤ countLoginPosts wSession.trace + (6 - 0)) :=
  ⟨by decide, rfl, rfl, by decide, by decide,
   login_session_invalidated_retry "user@example.com" "hunter2" "" "" none 0 wSession
     "csrf-a" [CsrfR.tok "csrf-b"] errSession [none]
     "errors.com.epicgames.common.oauth.session_invalidated"
     (by decide) rfl rfl (by decide) (by decide)⟩

/-- Helper: successful CAPTCHA resolution pops the scripted token and
records exactly one resolver call. -/
theorem notifyManualCaptcha_ok (blob : Option String) (w : World) (t : String)
    (rest : List String) (h : w.capS = t :: rest) :
    notifyManualCaptcha blob w =
      (Except.ok t, { w with capS := rest, trace := w.trace ++ [Ev.captcha blob] }) := by
  simp [notifyManualCaptcha, pushEv, h]

/-- Claim C4: when the credential POST fails with exactly the captcha-invalid
error code, `login()` invokes the external CAPTCHA resolver exactly once
for this occurrence (one `Ev.captcha` event) and retries with the returned
token as the captcha argument and `attempt + 1`, every other input
unchanged (login.ts:125-126). -/
theorem login_captcha_invalid_retry (email password captcha totp ctok tok : String)
    (blob : Option String) (attempt : Nat) (w : World)
    (crest : List CsrfR) (he : HttpErr) (lrest : List (Option HttpErr)) (caprest : List String)
    (ha : attempt ≤ 5) (hc : w.csrfS = CsrfR.tok tok :: crest)
    (hl : w.loginS = some he :: lrest)
    (hcode : structuredCode (Err.http he) = some captchaInvalidCode)
    (hcap : w.capS = ctok :: caprest) :
    login email password captcha totp blob attempt w =
      login email password ctok totp blob (attempt + 1)
        { w with
          csrfS := crest, loginS := lrest, capS := caprest,
          trace := w.trace ++ [Ev.net Req.csrfGet,
                               Ev.net (Req.loginPost email password captcha tok),
                               Ev.captcha blob] } := by
  rw [login_err email password captcha totp blob attempt w tok crest he lrest ha hc hl]
  have h1 : containsSub captchaInvalidCode sessionInvalidatedSub = false := by decide
  simp only [hcode, h1, Bool.false_eq_true, if_false, ite_false, eq_self_iff_true,
             if_true, ite_true]
  rw [notifyManualCaptcha_ok blob
    { w with
      csrfS := crest, loginS := lrest,
      trace := w.trace ++ [Ev.net Req.csrfGet,
                           Ev.net (Req.loginPost email password captcha tok)] }
    ctok caprest hcap]
  simp [List.append_assoc]

/-- World for the C4 witness: captcha-invalid error then success, with one
scripted resolver token. -/
def wCaptcha : World :=
  mkWorld [CsrfR.tok "csrf-a", CsrfR.tok "csrf-b"] [some errCaptcha, none] [] [] [] [] []
    ["solved-captcha"]

/-- Witness for C4 at `attempt = 0` on a concrete world. -/
theorem login_captcha_invalid_retry_witness :
    0 ≤ 5 ∧ wCaptcha.csrfS = CsrfR.tok "csrf-a" :: [CsrfR.tok "csrf-b"] ∧
    wCaptcha.loginS = some errCaptcha :: [none] ∧
    structuredCode (Err.http errCaptcha) = some captchaInvalidCode ∧
    wCaptcha.capS = "solved-captcha" :: [] ∧
    login "user@example.com" "hunter2" "" "" (some "blob-1") 0 wCaptcha =
      login "user@example.com" "hunter2" "solved-captcha" "" (some "blob-1") 1
        { wCaptcha with
          csrfS := [CsrfR.tok "csrf-b"], loginS := [none], capS := [],
          trace := wCaptcha.trace ++ [Ev.net Req.csrfGet,
            Ev.net (Req.loginPost "user@example.com" "hunter2" "" "csrf-a"),
            Ev.captcha (some "blob-1")] } :=
  ⟨by decide, rfl, rfl, by decide, rfl,
   login_captcha_invalid_retry "user@example.com" "hunter2" "" "" "solved-captcha" "csrf-a"
     (some "blob-1") 0 wCaptcha [CsrfR.tok "csrf-b"] errCaptcha [none] []
     (by decide) rfl rfl (by decide) rfl⟩

/-- Claim C5: when the credential POST fails with exactly the two-factor-required
error code, `login()` becomes one call to `loginMFA` with the `totp`
argument on the post-POST world: MFA runs exactly once, no outer retry and
no use of the attempt counter happens afterwards, and whatever `loginMFA`
returns (success or failure) is the result of `login()` (login.ts:127-131). -/
theorem login_two_factor_mfa_once (email password captcha totp : String)
    (blob : Option String) (attempt : Nat) (w : World) (tok : String)
    (crest : List CsrfR) (he : HttpErr) (lrest : List (Option HttpErr))
    (ha : attempt ≤ 5) (hc : w.csrfS = CsrfR.tok tok :: crest)
    (hl : w.loginS = some he :: lrest)
    (hcode : structuredCode (Err.http he) = some twoFactorRequiredCode) :
    login email password captcha totp blob attempt w =
      loginMFA (some totp)
        { w with
          csrfS := crest, loginS := lrest,
          trace := w.trace ++ [Ev.net Req.csrfGet,
                               Ev.net (Req.loginPost email password captcha tok)] } := by
  rw [login_err email password captcha totp blob attempt w tok crest he lrest ha hc hl]
  have h1 : containsSub twoFactorRequiredCode sessionInvalidatedSub = false := by decide
  have h2 : twoFactorRequiredCode ≠ captchaInvalidCode := by decide
  simp only [hcode, h1, Bool.false_eq_true, if_false, ite_false, h2, eq_self_iff_true,
             if_true, ite_true]

/-- World for the C5 witness: two-factor-required error, then a successful
CSRF fetch and MFA POST. -/
def wTwoFactor : World :=
  mkWorld [CsrfR.tok "csrf-a", CsrfR.tok "csrf-b"] [some errTwoFactor] [none] [] [] [] [] []

/-- Witness for C5 at `attempt = 0` on a concrete world. -/
theorem login_two_factor_mfa_once_witness :
    0 ≤ 5 ∧ wTwoFactor.csrfS = CsrfR.tok "csrf-a" :: [CsrfR.tok "csrf-b"] ∧
    wTwoFactor.loginS = some errTwoFactor :: [] ∧
    structuredCode (Err.http errTwoFactor) = some twoFactorRequiredCode ∧
    login "user@example.com" "hunter2" "" "JBSWY3DP" none 0 wTwoFactor =
      loginMFA (some "JBSWY3DP")
        { wTwoFactor with
          csrfS := [CsrfR.tok "csrf-b"], loginS := [],
          trace := wTwoFactor.trace ++ [Ev.net Req.csrfGet,
            Ev.net (Req.loginPost "user@example.com" "hunter2" "" "csrf-a")] } :=
  ⟨by decide, rfl, rfl, by decide,
   login_two_factor_mfa_once "user@example.com" "hunter2" "" "JBSWY3DP" none 0 wTwoFactor
     "csrf-a" [CsrfR.tok "csrf-b"] errTwoFactor [] (by decide) rfl rfl (by decide)⟩

/-- Helper: `loginMFA` on a falsy TOTP secret throws without touching the
world (used by the C6 and C10 theorems). -/
theorem loginMFA_falsy (t : Option String) (w : World) (h : strTruthy t = none) :
    loginMFA t w = (Except.error (Err.app "TOTP required for MFA login"), w) := by
  unfold loginMFA
  rw [h]

/-- Claim C6: for every call to `loginMFA()` whose TOTP secret is absent (falsy:
`undefined` or the empty string), the call throws the explicit error
`TOTP required for MFA login` with the world unchanged, so before any
network call: no CSRF fetch, no MFA POST (login.ts:57). -/
theorem loginMFA_requires_totp (t : Option String) (w : World) (h : strTruthy t = none) :
    loginMFA t w = (Except.error (Err.app "TOTP required for MFA login"), w) :=
  loginMFA_falsy t w h

/-- Witness for C6 with the secret argument absent. -/
theorem loginMFA_requires_totp_witness :
    strTruthy none = none ∧
    loginMFA none wCsrfOnly
      = (Except.error (Err.app "TOTP required for MFA login"), wCsrfOnly) :=
  ⟨by decide, loginMFA_requires_totp none wCsrfOnly (by decide)⟩

/-- Claim C7: when the credential POST fails with an error that either has no
structured `errorCode` or carries a code recognized by no branch, `login()`
re-throws that very error object unchanged (same `HttpErr`, including its
identity tag), with no recovery action: the trace gains only the CSRF GET
and the failed POST (login.ts:132-139). -/
theorem login_unrecognized_error_rethrow (email password captcha totp : String)
    (blob : Option String) (attempt : Nat) (w : World) (tok : String)
    (crest : List CsrfR) (he : HttpErr) (lrest : List (Option HttpErr))
    (ha : attempt ≤ 5) (hc : w.csrfS = CsrfR.tok tok :: crest)
    (hl : w.loginS = some he :: lrest)
    (hcode : ∀ c, structuredCode (Err.http he) = some c →
      containsSub c sessionInvalidatedSub = false ∧
      c ≠ captchaInvalidCode ∧ c ≠ twoFactorRequiredCode) :
    login email password captcha totp blob attempt w =
      (Except.error (Err.http he),
       { w with
         csrfS := crest, loginS := lrest,
         trace := w.trace ++ [Ev.net Req.csrfGet,
                              Ev.net (Req.loginPost email password captcha tok)] }) := by
  rw [login_err email password captcha totp blob attempt w tok crest he lrest ha hc hl]
  rcases hsc : structuredCode (Err.http he) with _ | c
  · simp [hsc]
  · obtain ⟨h1, h2, h3⟩ := hcode c hsc
    simp [hsc, h1, h2, h3]

/-- World for the C7 witness: an unrecognized structured error code. -/
def wOther : World := mkWorld [CsrfR.tok "csrf-a"] [some errOther] [] [] [] [] [] []

/-- Witness for C7 at `attempt = 0` with an unrecognized error code. -/
theorem login_unrecognized_error_rethrow_witness :
    0 ≤ 5 ∧ wOther.csrfS = CsrfR.tok "csrf-a" :: [] ∧
    wOther.loginS = some errOther :: [] ∧
    (∀ c, structuredCode (Err.http errOther) = some c →
      containsSub c sessionInvalidatedSub = false ∧
      c ≠ captchaInvalidCode ∧ c ≠ twoFactorRequiredCode) ∧
    login "user@example.com" "hunter2" "" "" none 0 wOther =
      (Except.error (Err.http errOther),
       { wOther with
         csrfS := [], loginS := [],
         trace := wOther.trace ++ [Ev.net Req.csrfGet,
                                   Ev.net (Req.loginPost "user@example.com" "hunter2" "" "csrf-a")] }) :=
  ⟨by decide, rfl, rfl,
   by
     intro c hc
     injection hc with h
     subst h
     exact ⟨by decide, by decide, by decide⟩,
   login_unrecognized_error_rethrow "user@example.com" "hunter2" "" "" none 0 wOther
     "csrf-a" [] errOther [] (by decide) rfl rfl
     (by
       intro c hc
       injection hc with h
       subst h
       exact ⟨by decide, by decide, by decide⟩)⟩

/-- Claim C8: when the redirect response carries no truthy session identifier,
`refreshAndSid false` returns `false` without throwing and
`refreshAndSid true` throws `Sid returned null`; in both cases the trace
shows that the SID-setting request and the store-token fetch were not
issued (login.ts:163-167). -/
theorem refreshAndSid_missing_sid (err : Bool) (w : World) (tok : String)
    (crest : List CsrfR) (sid : Option String) (rrest : List RedirR)
    (hc : w.csrfS = CsrfR.tok tok :: crest)
    (hr : w.redirS = RedirR.ok sid :: rrest)
    (hsid : strTruthy sid = none) :
    refreshAndSid err w =
      ((if err then Except.error (Err.app "Sid returned null") else Except.ok false),
       { w with
         csrfS := crest, redirS := rrest,
         trace := w.trace ++ [Ev.net Req.csrfGet, Ev.net (Req.redirectGet tok)] }) := by
  unfold refreshAndSid
  rw [getCsrf_ok w tok crest hc]
  simp only [pushEv, hr, hsid, List.append_assoc, List.cons_append, List.nil_append]
  cases err <;> simp

/-- World for the C8 witness: redirect answers with no `sid` field. -/
def wNoSid : World :=
  mkWorld [CsrfR.tok "csrf-a"] [] [] [] [RedirR.ok none] [] [] []

/-- Witness for C8, applying the theorem at both `error = false` and
`error = true`. -/
theorem refreshAndSid_missing_sid_witness :
    wNoSid.csrfS = CsrfR.tok "csrf-a" :: [] ∧
    wNoSid.redirS = RedirR.ok none :: [] ∧
    strTruthy none = none ∧
    refreshAndSid false wNoSid =
      (Except.ok false,
       { wNoSid with
         csrfS := [], redirS := [],
         trace := wNoSid.trace ++ [Ev.net Req.csrfGet, Ev.net (Req.redirectGet "csrf-a")] }) ∧
    refreshAndSid true wNoSid =
      (Except.error (Err.app "Sid returned null"),
       { wNoSid with
         csrfS := [], redirS := [],
         trace := wNoSid.trace ++ [Ev.net Req.csrfGet, Ev.net (Req.redirectGet "csrf-a")] }) :=
  ⟨rfl, rfl, by decide,
   refreshAndSid_missing_sid false wNoSid "csrf-a" [] none [] rfl rfl (by decide),
   refreshAndSid_missing_sid true wNoSid "csrf-a" [] none [] rfl rfl (by decide)⟩

/-- Claim C9: when the opening `refreshAndSid false` succeeds (returns `true`),
`fullLogin()` does nothing else: no reputation fetch, no `login`, no second
refresh (first conjunct).  Otherwise it runs exactly the sequence
reputation fetch, then `login` with the fetched blob and attempt 0, then
`refreshAndSid true`, in that order, each step starting from the world the
previous step produced (second conjunct) (login.ts:181-188). -/
theorem fullLogin_session_reuse_skip (email password totp : String) (w : World) :
    (∀ w1, refreshAndSid false w = (Except.ok true, w1) →
       fullLogin email password totp w = (Except.ok (), w1)) ∧
    (∀ w1, refreshAndSid false w = (Except.ok false, w1) →
       fullLogin email password totp w =
         (match getReputation w1 with
          | (Except.error e, w2) => (Except.error e, w2)
          | (Except.ok rep, w2) =>
            match login email password "" totp rep 0 w2 with
            | (Except.error e, w3) => (Except.error e, w3)
            | (Except.ok _, w3) =>
              match refreshAndSid true w3 with
              | (Except.error e, w4) => (Except.error e, w4)
              | (Except.ok _, w4) => (Except.ok (), w4))) := by
  constructor <;> intro w1 h <;> unfold fullLogin <;> rw [h]

/-- World for the C9 witness, reuse path: a valid session is found. -/
def wReuse : World :=
  mkWorld [CsrfR.tok "c0"] [] [] [] [RedirR.ok (some "sid-1")] [none] [none] []

/-- The world after the successful session refresh on `wReuse`. -/
def wReuseEnd : World :=
  { mkWorld [] [] [] [] [] [] [] [] with
    trace := [Ev.net Req.csrfGet, Ev.net (Req.redirectGet "c0"),
              Ev.net (Req.setSidGet "sid-1"), Ev.net Req.storeGet] }

/-- World for the C9 witness, fresh path: the first refresh finds no
session, then reputation, login and the demanded refresh all succeed. -/
def wFresh : World :=
  mkWorld [CsrfR.tok "c0", CsrfR.tok "c1", CsrfR.tok "c2"] [none] []
    [RepR.ok (some "blob-1")] [RedirR.ok none, RedirR.ok (some "sid-2")] [none] [none] []

/-- The world after the failed session refresh on `wFresh`. -/
def wFreshMid : World :=
  { mkWorld [CsrfR.tok "c1", CsrfR.tok "c2"] [none] [] [RepR.ok (some "blob-1")]
      [RedirR.ok (some "sid-2")] [none] [none] [] with
    trace := [Ev.net Req.csrfGet, Ev.net (Req.redirectGet "c0")] }

/-- Witness for C9, applying the theorem on both the reuse path and the
fresh-login path. -/
theorem fullLogin_session_reuse_skip_witness :
    (refreshAndSid false wReuse = (Except.ok true, wReuseEnd) ∧
     fullLogin "user@example.com" "hunter2" "JBSWY3DP" wReuse = (Except.ok (), wReuseEnd)) ∧
    (refreshAndSid false wFresh = (Except.ok false, wFreshMid) ∧
     fullLogin "user@example.com" "hunter2" "JBSWY3DP" wFresh =
       (match getReputation wFreshMid with
        | (Except.error e, w2) => (Except.error e, w2)
        | (Except.ok rep, w2) =>
          match login "user@example.com" "hunter2" "" "JBSWY3DP" rep 0 w2 with
          | (Except.error e, w3) => (Except.error e, w3)
          | (Except.ok _, w3) =>
            match refreshAndSid true w3 with
            | (Except.error e, w4) => (Except.error e, w4)
            | (Except.ok _, w4) => (Except.ok (), w4))) :=
  ⟨⟨rfl, (fullLogin_session_reuse_skip "user@example.com" "hunter2" "JBSWY3DP" wReuse).1
      wReuseEnd rfl⟩,
   ⟨rfl, (fullLogin_session_reuse_skip "user@example.com" "hunter2" "JBSWY3DP" wFresh).2
      wFreshMid rfl⟩⟩

/-- Claim C10: `login()` called with the default `totp` (the empty string, the
TypeScript default parameter value at login.ts:92) and hitting the
two-factor-required error code always ends in the error
`TOTP required for MFA login` rather than an MFA attempt, because
`loginMFA` treats the empty string as an absent secret; no MFA network
call is made (the trace gains only the CSRF GET and the failed POST). -/
theorem login_default_totp_two_factor_fails (email password captcha : String)
    (blob : Option String) (attempt : Nat) (w : World) (tok : String)
    (crest : List CsrfR) (he : HttpErr) (lrest : List (Option HttpErr))
    (ha : attempt ≤ 5) (hc : w.csrfS = CsrfR.tok tok :: crest)
    (hl : w.loginS = some he :: lrest)
    (hcode : structuredCode (Err.http he) = some twoFactorRequiredCode) :
    login email password captcha "" blob attempt w =
      (Except.error (Err.app "TOTP required for MFA login"),
       { w with
         csrfS := crest, loginS := lrest,
         trace := w.trace ++ [Ev.net Req.csrfGet,
                              Ev.net (Req.loginPost email password captcha tok)] }) := by
  rw [login_err email password captcha "" blob attempt w tok crest he lrest ha hc hl]
  have h1 : containsSub twoFactorRequiredCode sessionInvalidatedSub = false := by decide
  have h2 : twoFactorRequiredCode ≠ captchaInvalidCode := by decide
  simp only [hcode, h1, Bool.false_eq_true, if_false, ite_false, h2, eq_self_iff_true,
             if_true, ite_true]
  exact loginMFA_falsy (some "") _ (by decide)

/-- Witness for C10 at `attempt = 0` on the two-factor world. -/
theorem login_default_totp_two_factor_fails_witness :
    0 ≤ 5 ∧ wTwoFactor.csrfS = CsrfR.tok "csrf-a" :: [CsrfR.tok "csrf-b"] ∧
    wTwoFactor.loginS = some errTwoFactor :: [] ∧
    structuredCode (Err.http errTwoFactor) = some twoFactorRequiredCode ∧
    login "user@example.com" "hunter2" "" "" none 0 wTwoFactor =
      (Except.error (Err.app "TOTP required for MFA login"),
       { wTwoFactor with
         csrfS := [CsrfR.tok "csrf-b"], loginS := [],
         trace := wTwoFactor.trace ++ [Ev.net Req.csrfGet,
           Ev.net (Req.loginPost "user@example.com" "hunter2" "" "csrf-a")] }) :=
  ⟨by decide, rfl, rfl, by decide,
   login_default_totp_two_factor_fails "user@example.com" "hunter2" "" none 0 wTwoFactor
     "csrf-a" [CsrfR.tok "csrf-b"] errTwoFactor [] (by decide) rfl rfl (by decide)⟩

end EpicLogin
